import Mathlib

/-!
# Verification of the wipe-announcer bot core (`src/wipe_bot.py`)

Shallow embedding of the poll state machine, the RCON transport wrapper,
and the schedule calculator of `wipe_bot.py`, together with theorems
settling the specification claims.

Time instants are modelled in microseconds.  For calendar-dependent code
(Python `datetime` in UTC) we embed the proleptic Gregorian calendar the
way CPython's `datetime` module implements it: `toordinal` counts days
from 0001-01-01 (= ordinal 1), and `weekday = (toordinal + 6) % 7` with
Monday = 0.  An aware UTC datetime is identified with the absolute
instant `toordinal * usPerDay + time-of-day-in-us`; Python's
`datetime + timedelta` and datetime comparison coincide with arithmetic
and order on that absolute instant.
-/

/-! ## Time units -/

def usPerSec : Nat := 1000000

def usPerMin : Nat := 60 * usPerSec

def usPerHour : Nat := 60 * usPerMin

def usPerDay : Nat := 24 * usPerHour

/-! ## Remote command transport (`WipeAnnouncerBot.execute_rcon_command`)

The Python function opens a WebSocket, sends one JSON command, and waits
for one reply.  Every way in which the network interaction can unfold is
captured by `RconOutcome`:

* `connectionRefused`, `authRejected`, `malformedReply`, `timeout` — an
  exception is raised inside the worker closure `run_command` (by
  `websocket.create_connection`, `ws.send`, `ws.recv` timing out, or
  `json.loads` on a malformed reply); the `except` clause returns the
  string `"Command likely executed"`.
* `emptyReply` — `ws.recv()` returns a falsy value; the code returns
  `"Command executed"`.
* `replyNoMessage` — the reply parses as JSON but has no `"Message"`
  key; `data.get("Message", "Command executed")` yields the default.
* `reply msg` — the reply parses and carries `"Message": msg` with a
  string value; the server's own text is returned verbatim (it may be
  empty).
* `replyNullMessage` — the reply parses and the `"Message"` key is
  present but holds JSON `null`: `json.loads` maps it to Python `None`,
  the key being present means `data.get`'s default is NOT used, and the
  call returns `None`.  (A reply whose `Message` is another non-string
  JSON value is returned as that object; every consumer in the program
  only tests its truthiness, so a truthy non-string behaves like
  `reply msg` with `msg` non-empty and a falsy non-string — `0`,
  `false`, `[]` — behaves like this case.)
* `outerFailure` — an exception escapes to the outer `try` of
  `execute_rcon_command`; that handler returns `"Command executed"`.
-/

inductive RconOutcome
  | connectionRefused
  | authRejected
  | malformedReply
  | timeout
  | emptyReply
  | replyNoMessage
  | reply (msg : String)
  | replyNullMessage
  | outerFailure
deriving DecidableEq

/-- The worker closure `run_command` inside `execute_rcon_command`:
its value for every network outcome that stays inside the inner `try`.
It is declared to return a string but `data.get("Message", ...)` can
produce `None` (modelled as `none`) when the reply's `Message` is
`null`. -/
def run_command : RconOutcome → Option String
  | RconOutcome.connectionRefused => some "Command likely executed"
  | RconOutcome.authRejected => some "Command likely executed"
  | RconOutcome.malformedReply => some "Command likely executed"
  | RconOutcome.timeout => some "Command likely executed"
  | RconOutcome.emptyReply => some "Command executed"
  | RconOutcome.replyNoMessage => some "Command executed"
  | RconOutcome.reply msg => some msg
  | RconOutcome.replyNullMessage => none
  | RconOutcome.outerFailure => some "Command executed"

/-- `WipeAnnouncerBot.execute_rcon_command`.  Declared in Python as
returning `Optional[str]`; `none` models a `None` result.  The outer
`except` clause returns `"Command executed"`, every other path returns
the worker's value. -/
def execute_rcon_command : RconOutcome → Option String
  | RconOutcome.outerFailure => some "Command executed"
  | o => run_command o

/-- The four outcomes the spec calls strategy failures: connection
refused, auth failure, malformed reply, timeout. -/
def isStrategyFailure : RconOutcome → Bool
  | RconOutcome.connectionRefused => true
  | RconOutcome.authRejected => true
  | RconOutcome.malformedReply => true
  | RconOutcome.timeout => true
  | _ => false

/-- Python truthiness of an `Optional[str]`: `None` and `""` are falsy.
Models `if response:` in `set_wipe_type`. -/
def optStrTruthy : Option String → Bool
  | none => false
  | some s => s ≠ ""

/-- One row of the `wipe_history` table as written by `set_wipe_type`
(the `executed_at` timestamp column is omitted; it carries no claim). -/
structure HistoryRow where
  server_name : String
  wipe_type : String
  set_by : String
  success : Bool
deriving DecidableEq

/-- `WipeAnnouncerBot.set_wipe_type`: returns `False` for an unknown
server; otherwise runs the RCON command and, when the response is
truthy, appends one `wipe_history` row with `success = True` and
returns `True`; a falsy response returns `False` with no row. -/
def set_wipe_type (servers : List String) (server_name wipe_type user : String)
    (o : RconOutcome) (hist : List HistoryRow) : Bool × List HistoryRow :=
  if server_name ∉ servers then (false, hist)
  else
    let response := execute_rcon_command o
    if optStrTruthy response then
      (true, hist ++ [⟨server_name, wipe_type, user, true⟩])
    else (false, hist)

/-! ## Poll votes (`WipePollView.votes` and the three button callbacks) -/

inductive WipeSetting
  | map
  | blueprint
  | full
deriving DecidableEq

/-- `self.votes = {"map": set(), "blueprint": set(), "full": set()}`:
one set of voter ids per wipe setting. -/
structure Votes where
  map : Finset Nat
  blueprint : Finset Nat
  full : Finset Nat
deriving DecidableEq

def Votes.empty : Votes := ⟨∅, ∅, ∅⟩

def votesFor (v : Votes) : WipeSetting → Finset Nat
  | WipeSetting.map => v.map
  | WipeSetting.blueprint => v.blueprint
  | WipeSetting.full => v.full

/-- `WipePollView.map_vote`: discard the voter from the other two sets,
then add to `map`. -/
def map_vote (v : Votes) (user_id : Nat) : Votes :=
  { v with
    blueprint := v.blueprint.erase user_id
    full := v.full.erase user_id
    map := insert user_id v.map }

/-- `WipePollView.bp_vote`. -/
def bp_vote (v : Votes) (user_id : Nat) : Votes :=
  { v with
    map := v.map.erase user_id
    full := v.full.erase user_id
    blueprint := insert user_id v.blueprint }

/-- `WipePollView.full_vote`. -/
def full_vote (v : Votes) (user_id : Nat) : Votes :=
  { v with
    map := v.map.erase user_id
    blueprint := v.blueprint.erase user_id
    full := insert user_id v.full }

/-- Dispatch of the three button callbacks. -/
def castVote (v : Votes) (user_id : Nat) : WipeSetting → Votes
  | WipeSetting.map => map_vote v user_id
  | WipeSetting.blueprint => bp_vote v user_id
  | WipeSetting.full => full_vote v user_id

/-! ## Winner selection (`WipePollView.on_timeout`)

```python
vote_counts = {"map": ..., "blueprint": ..., "full": ...}
if sum(vote_counts.values()) == 0:
    winner = "full"
else:
    winner = max(vote_counts, key=vote_counts.get)
```

Python's `max` over a dict iterates keys in insertion order
(`"map"`, `"blueprint"`, `"full"`) and keeps the FIRST key whose count
is maximal, so ties resolve to the earliest key in that order. -/
def vote_winner (mapCount bpCount fullCount : Nat) : String :=
  if mapCount + bpCount + fullCount = 0 then "full"
  else if bpCount ≤ mapCount ∧ fullCount ≤ mapCount then "map"
  else if fullCount ≤ bpCount then "blueprint"
  else "full"

/-- The winner `on_timeout` computes from a live `votes` structure. -/
def on_timeout_winner (v : Votes) : String :=
  vote_winner v.map.card v.blueprint.card v.full.card

/-! ## Poll deadline (`WipePollView.__init__` and `discord.ui.View`)

```python
timeout_seconds = (wipe_time - now).total_seconds() - 3600
timeout_seconds = max(60, min(timeout_seconds, 86400))
super().__init__(timeout=timeout_seconds)
```

Instants in microseconds (exact: `total_seconds` is a ratio of the
microsecond-precise timedelta). -/
def poll_timeout_us (wipe_time now : Int) : Int :=
  max (60 * (usPerSec : Int)) (min (wipe_time - now - 3600 * (usPerSec : Int)) (86400 * (usPerSec : Int)))

/-- The instant at which `on_timeout` (resolution) fires.  A
`discord.ui.View` timeout is the duration "in seconds from last
interaction with the UI": the view sets its expiry to now + timeout at
start and `View._scheduled_task` resets it to now + timeout again on
every dispatched interaction, before running the button callback.  The
timeout DURATION is computed once in `__init__` (from the creation
instant) and never recomputed, but the expiry clock restarts at each
vote, so with button interactions at the instants `interactions`
(interactions happen while the view is live, hence after creation) the
view times out one clamped duration after the latest of creation and
the interactions. -/
def resolution_time (wipe_time created : Int) (interactions : List Int) : Int :=
  interactions.foldl max created + poll_timeout_us wipe_time created

/-! ## Proleptic Gregorian calendar (CPython `datetime` semantics) -/

/-- Gregorian leap year, as `calendar.isleap` / `datetime`. -/
def isLeap (y : Nat) : Bool :=
  y % 4 = 0 && (y % 100 ≠ 0 || y % 400 = 0)

/-- Length of month `m` (1-based) in year `y`. -/
def daysInMonth (y m : Nat) : Nat :=
  if m = 2 then (if isLeap y then 29 else 28)
  else if m = 4 ∨ m = 6 ∨ m = 9 ∨ m = 11 then 30
  else 31

/-- Days in all months strictly before month `m` (1-based) of year `y`. -/
def daysBeforeMonth (y m : Nat) : Nat :=
  (List.range (m - 1)).foldl (fun acc i => acc + daysInMonth y (i + 1)) 0

/-- Days in all years strictly before year `y` (proleptic Gregorian,
`datetime._days_before_year`). -/
def daysBeforeYear (y : Nat) : Nat :=
  365 * (y - 1) + (y - 1) / 4 - (y - 1) / 100 + (y - 1) / 400

/-- `date(y, m, d).toordinal()`: day number with 0001-01-01 = 1. -/
def toordinal (y m d : Nat) : Nat :=
  daysBeforeYear y + daysBeforeMonth y m + d

/-- `date(y, m, d).weekday()`: Monday = 0.  `date(1, 1, 1)` is a Monday
and has ordinal 1, hence the `+ 6`. -/
def weekdayOfDate (y m d : Nat) : Nat :=
  (toordinal y m d + 6) % 7

/-- An aware UTC `datetime.datetime`. -/
structure PyDateTime where
  year : Nat
  month : Nat
  day : Nat
  hour : Nat
  minute : Nat
  second : Nat
  usec : Nat
deriving DecidableEq

/-- Microseconds since midnight. -/
def timeOfDayUs (dt : PyDateTime) : Nat :=
  dt.hour * usPerHour + dt.minute * usPerMin + dt.second * usPerSec + dt.usec

/-- The absolute instant of a UTC datetime, in microseconds from the
epoch ordinal 0.  Python's aware-datetime comparison and
`datetime + timedelta` agree with order and addition on this value. -/
def toAbs (dt : PyDateTime) : Nat :=
  toordinal dt.year dt.month dt.day * usPerDay + timeOfDayUs dt

/-! ## Schedule calculator, weekly branch
(`WipeAnnouncerBot.calculate_next_wipe`, `else` branch)

```python
days_ahead = wipe_schedule['day_of_week'] - now.weekday()
if days_ahead < 0:
    days_ahead += 7
elif days_ahead == 0:
    wipe_time_today = now.replace(hour=H, minute=M, second=0, microsecond=0)
    if now >= wipe_time_today:
        days_ahead = 7
next_wipe = (now + timedelta(days=days_ahead)).replace(hour=H, minute=M, second=0, microsecond=0)
```

The branch only reads `now` through `weekday()`, `replace(...)` on the
time of day, whole-day addition, and comparison — all of which factor
through the absolute instant.  We therefore embed it directly on the
absolute instant `t` (microseconds from epoch ordinal 0):
`now.weekday() = (t / usPerDay + 6) % 7`,
`now.replace(hour=H, minute=M, second=0, microsecond=0)
 = (t / usPerDay) * usPerDay + H*usPerHour + M*usPerMin`,
`now + timedelta(days=d) = t + d * usPerDay`. -/
def calculate_next_wipe_weekly (day_of_week hour minute : Nat) (t : Nat) : Nat :=
  let wd := (t / usPerDay + 6) % 7
  let d0 : Int := (day_of_week : Int) - (wd : Int)
  let wipe_time_today := (t / usPerDay) * usPerDay + hour * usPerHour + minute * usPerMin
  let d : Int :=
    if d0 < 0 then d0 + 7
    else if d0 = 0 then (if wipe_time_today ≤ t then 7 else 0)
    else d0
  ((t + d.toNat * usPerDay) / usPerDay) * usPerDay + hour * usPerHour + minute * usPerMin

/-! ## Schedule calculator, monthly branch
(`WipeAnnouncerBot.calculate_next_wipe`, `schedule_type == 'monthly'`)

```python
first_day = now.replace(day=1, hour=H, minute=M, second=0, microsecond=0)
days_until_target = (target_day - first_day.weekday()) % 7
first_thursday = first_day + timedelta(days=days_until_target)
if now >= first_thursday:
    first_day = <day 1 of the following month, year rollover at December>
    days_until_target = (target_day - first_day.weekday()) % 7
    first_thursday = first_day + timedelta(days=days_until_target)
return first_thursday
```

`(target_day - first_day.weekday()) % 7` is a Python modulo, always in
`[0, 6]`; with `wd = weekday < 7` and `target_day` a `Nat` it equals the
Nat value `(target_day + 7 - wd) % 7`.  Adding at most 6 days to day 1
never leaves the month (every month has ≥ 28 days), so the timedelta
addition is day arithmetic within `(y, m)`. -/
def first_target_of_month (target_day hour minute y m : Nat) : PyDateTime :=
  let days_until_target := (target_day + 7 - weekdayOfDate y m 1) % 7
  ⟨y, m, 1 + days_until_target, hour, minute, 0, 0⟩

def calculate_next_wipe_monthly (target_day hour minute : Nat) (now : PyDateTime) : PyDateTime :=
  let first_thursday := first_target_of_month target_day hour minute now.year now.month
  if toAbs first_thursday ≤ toAbs now then
    if now.month = 12 then
      first_target_of_month target_day hour minute (now.year + 1) 1
    else
      first_target_of_month target_day hour minute now.year (now.month + 1)
  else first_thursday

/-! ## Scheduler state (`wipe_polls` table, `send_wipe_poll`,
`check_upcoming_wipes`)

The `wipe_polls` table has `server_name` as PRIMARY KEY, so it holds at
most one row per server; `INSERT OR REPLACE` in `send_wipe_poll`
replaces the row for that key.  We model the table as an association
list with no duplicate keys and replacement by filtering the key out. -/

structure PollRow where
  message_id : Nat
  channel_id : Nat
  wipe_time : Int
  poll_active : Bool
  winner : Option String
deriving DecidableEq

/-- An announcement sent to the presentation layer.  `pollOpened`
models the `channel.send(...)` in `send_wipe_poll` that announces an
open vote. -/
inductive Event
  | pollOpened (server : String)
deriving DecidableEq

structure BotState where
  polls : List (String × PollRow)
  events : List Event
deriving DecidableEq

/-- `SELECT * FROM wipe_polls WHERE server_name = ? AND poll_active = 1`
has a row. -/
def hasActivePoll (st : BotState) (server_name : String) : Bool :=
  match st.polls.lookup server_name with
  | some row => row.poll_active
  | none => false

/-- `WipeAnnouncerBot.send_wipe_poll`: if the announce channel cannot be
found the function returns early; otherwise it sends the poll message
(one `pollOpened` event) and `INSERT OR REPLACE`s the `wipe_polls` row
with `poll_active = 1`. -/
def send_wipe_poll (server_name : String) (wipe_time : Int)
    (message_id channel_id : Nat) (channel_found : Bool)
    (st : BotState) : BotState :=
  if channel_found then
    { polls := (server_name, ⟨message_id, channel_id, wipe_time, true, none⟩) ::
        st.polls.filter (fun p => p.1 ≠ server_name)
      events := st.events ++ [Event.pollOpened server_name] }
  else st

/-- One server's iteration of the 30-minute task
`WipeAnnouncerBot.check_upcoming_wipes`: `continue` when an active poll
row exists; otherwise, when `calculate_next_wipe` yields an instant
between `hours_before - 0.5` and `hours_before` hours away, call
`send_wipe_poll`.  `next_wipe` is the calculator's result (`none` when
no schedule is configured), `now` the current instant, both in
microseconds; `hours_before` is the integer config value
`poll_hours_before_wipe`. -/
def check_upcoming_wipes_step (server_name : String) (next_wipe : Option Int)
    (now : Int) (hours_before : Int) (message_id channel_id : Nat)
    (channel_found : Bool) (st : BotState) : BotState :=
  if hasActivePoll st server_name then st
  else
    match next_wipe with
    | none => st
    | some w =>
      let time_until_wipe := w - now
      if hours_before * (3600 * (usPerSec : Int)) - 1800 * (usPerSec : Int) ≤ time_until_wipe ∧
          time_until_wipe ≤ hours_before * (3600 * (usPerSec : Int)) then
        send_wipe_poll server_name w message_id channel_id channel_found st
      else st

/-! ## Statement abbreviations

Properties asserted by the schedule-calculator claims, named so the
theorems and their witnesses can share one statement.  In
`WeeklyNextProps`, for an absolute instant `r`, `r % usPerDay =
hour * usPerHour + minute * usPerMin` says precisely that `r`'s
time of day is `hour:minute:00.000000`, and `(r / usPerDay + 6) % 7`
is `r`'s weekday (Monday = 0). -/

def WeeklyNextProps (day_of_week hour minute t : Nat) : Prop :=
  let r := calculate_next_wipe_weekly day_of_week hour minute t
  let hm := hour * usPerHour + minute * usPerMin
  t < r ∧
  r % usPerDay = hm ∧
  (r / usPerDay + 6) % 7 = day_of_week ∧
  (∀ u : Nat, t < u → u % usPerDay = hm → (u / usPerDay + 6) % 7 = day_of_week → r ≤ u) ∧
  ((t / usPerDay + 6) % 7 = day_of_week ∧ t % usPerDay = hm → r = t + 7 * usPerDay)

def MonthlyNextProps (target_day hour minute : Nat) (now : PyDateTime) : Prop :=
  let r := calculate_next_wipe_monthly target_day hour minute now
  r.hour = hour ∧ r.minute = minute ∧ r.second = 0 ∧ r.usec = 0 ∧
  weekdayOfDate r.year r.month r.day = target_day ∧
  1 ≤ r.day ∧ r.day ≤ 7 ∧
  (∀ d, 1 ≤ d → d < r.day → weekdayOfDate r.year r.month d ≠ target_day) ∧
  (toAbs (first_target_of_month target_day hour minute now.year now.month) ≤ toAbs now →
    (now.month = 12 → r.year = now.year + 1 ∧ r.month = 1) ∧
    (now.month ≠ 12 → r.year = now.year ∧ r.month = now.month + 1)) ∧
  (toAbs now < toAbs (first_target_of_month target_day hour minute now.year now.month) →
    r.year = now.year ∧ r.month = now.month)

/-! ## Theorems -/

/-- C5 (confirmed): a remote-command call whose bounded wait elapses
with no reply (`ws.recv` raises a timeout) returns success carrying the
affirmative placeholder `"Command likely executed"`, not an error. -/
theorem C5_timeout_soft_success :
    execute_rcon_command RconOutcome.timeout = some "Command likely executed" := rfl

/-- C4 counterexample: a call whose protocol strategy fails with a
refused connection (likewise for the other failure kinds) returns a
success value — the placeholder string — not a `TransportError`; the
code's return type `Optional[str]` has no error inhabitant and the
call never even returns `None`. -/
theorem C4_counterexample :
    execute_rcon_command RconOutcome.connectionRefused = some "Command likely executed" ∧
    execute_rcon_command RconOutcome.authRejected = some "Command likely executed" ∧
    execute_rcon_command RconOutcome.malformedReply = some "Command likely executed" ∧
    (execute_rcon_command RconOutcome.timeout).isSome = true := by
  refine ⟨rfl, rfl, rfl, rfl⟩

/-- C4 as amended: every strategy-failure call (connection refused,
auth failure, malformed reply, timeout) returns the success placeholder
`"Command likely executed"` rather than any error value. -/
theorem C4_failures_return_placeholder (o : RconOutcome)
    (h : isStrategyFailure o = true) :
    execute_rcon_command o = some "Command likely executed" := by
  cases o <;> simp_all [isStrategyFailure, execute_rcon_command, run_command]

theorem C4_failures_return_placeholder_witness :
    execute_rcon_command RconOutcome.connectionRefused = some "Command likely executed" :=
  C4_failures_return_placeholder RconOutcome.connectionRefused (by rfl)

/-- C10 counterexample: the RCON call does not return a non-empty
string on every path.  A parsed reply `{"Message": null}` makes
`data.get("Message", ...)` return `None` (the key is present, so the
default is unused) and the call returns `None`; a parsed reply whose
`Message` is the empty string makes it return `""`.  Both are falsy,
so `set_wipe_type` returns `False` and appends no `wipe_history` row —
refuting both the claim that the transport never returns `None` and
the claim that setting the wipe type always returns `True` with one
success row. -/
theorem C10_counterexample :
    execute_rcon_command RconOutcome.replyNullMessage = none ∧
    set_wipe_type ["Server1"] "Server1" "full" "Auto Poll System"
        RconOutcome.replyNullMessage [] = (false, []) ∧
    execute_rcon_command (RconOutcome.reply "") = some "" ∧
    set_wipe_type ["Server1"] "Server1" "full" "Auto Poll System"
        (RconOutcome.reply "") [] = (false, []) := by
  refine ⟨rfl, by decide, rfl, by decide⟩

/-- C10 as amended: every failure path of the RCON call (connection
refusal, protocol exceptions, timeouts) returns a non-empty placeholder
string, but a parsed reply can carry a falsy `Message` — JSON `null`
(returned as `None`) or an empty string — so the transport can return
`None` or `""`.  For every server name present in the configuration
and every outcome other than a parsed reply with such a falsy
`Message` — in particular on every failure path — `set_wipe_type`
returns `True` and appends exactly one history row recording success,
regardless of whether the remote command actually executed; on a
falsy-`Message` reply it returns `False` and appends no row. -/
theorem C10_set_wipe_type_success (servers : List String)
    (server_name wipe_type user : String) (o : RconOutcome) (hist : List HistoryRow)
    (hmem : server_name ∈ servers)
    (hmsg : ∀ msg, o = RconOutcome.reply msg → msg ≠ "")
    (hnull : o ≠ RconOutcome.replyNullMessage) :
    (execute_rcon_command o).isSome = true ∧
    set_wipe_type servers server_name wipe_type user o hist
      = (true, hist ++ [⟨server_name, wipe_type, user, true⟩]) := by
  constructor
  · cases o <;> first | rfl | exact absurd rfl hnull
  · unfold set_wipe_type
    rw [if_neg (by simp [hmem])]
    cases o <;> simp [execute_rcon_command, run_command, optStrTruthy]
    · exact hmsg _ rfl
    · exact hnull rfl

theorem C10_set_wipe_type_success_witness :
    (execute_rcon_command RconOutcome.timeout).isSome = true ∧
    set_wipe_type ["Server1"] "Server1" "map" "admin" RconOutcome.timeout []
      = (true, [⟨"Server1", "map", "admin", true⟩]) :=
  C10_set_wipe_type_success ["Server1"] "Server1" "map" "admin" RconOutcome.timeout []
    (by decide) (fun _ h => nomatch h) (fun h => nomatch h)

/-- C1 counterexample: a session with tallies
{map: 2, blueprint: 2, full: 1} resolves to `"map"`, not `"full"`:
Python's `max` over the `vote_counts` dict keeps the first key in
insertion order (`"map"`, `"blueprint"`, `"full"`) whose count is
maximal, so ties do not default to FULL. -/
theorem C1_counterexample :
    on_timeout_winner ⟨{1, 2}, {3, 4}, {5}⟩ = "map" ∧ "map" ≠ "full" := by
  constructor
  · decide
  · decide

/-- C1 as amended: the winner is the setting whose vote-set has
strictly the largest size when that maximum is unique, and a session
with zero votes resolves to FULL; but a tie for the largest size
resolves to the first maximal entry in the fixed key order map,
blueprint, full — not to FULL. -/
theorem C1_winner_selection (mapCount bpCount fullCount : Nat) :
    (mapCount + bpCount + fullCount = 0 → vote_winner mapCount bpCount fullCount = "full") ∧
    (bpCount ≤ mapCount → fullCount ≤ mapCount → 0 < mapCount + bpCount + fullCount →
      vote_winner mapCount bpCount fullCount = "map") ∧
    (mapCount < bpCount → fullCount ≤ bpCount →
      vote_winner mapCount bpCount fullCount = "blueprint") ∧
    (mapCount < fullCount → bpCount < fullCount →
      vote_winner mapCount bpCount fullCount = "full") := by
  unfold vote_winner
  refine ⟨fun h => ?_, fun h1 h2 h3 => ?_, fun h1 h2 => ?_, fun h1 h2 => ?_⟩ <;>
    split_ifs <;> first | rfl | omega

theorem C1_winner_selection_witness :
    vote_winner 2 2 1 = "map" :=
  (C1_winner_selection 2 2 1).2.1 (by decide) (by decide) (by decide)

/-- C3 counterexample: the resolution instant is neither the target
wipe instant minus one hour in general, nor fixed at creation.  First,
for a poll created 48 hours before the wipe with no votes, the
deadline is clamped to 24 hours after creation
(`max(60, min(·, 86400))`), not wipe − 1 h.  Second, the deadline
moves after creation: for a poll created 25 hours before the wipe
(clamped timeout exactly 24 h, so the no-votes deadline IS wipe − 1 h),
a single vote one hour after creation restarts the view's timeout
clock and pushes resolution to the wipe instant itself. -/
theorem C3_counterexample :
    resolution_time (172800 * 1000000) 0 [] = 86400 * 1000000 ∧
    (172800 * 1000000 : Int) - 3600 * 1000000 ≠ 86400 * 1000000 ∧
    resolution_time (90000 * 1000000) 0 [] = (90000 * 1000000 : Int) - 3600 * 1000000 ∧
    resolution_time (90000 * 1000000) 0 [3600 * 1000000] = 90000 * 1000000 ∧
    (90000 * 1000000 : Int) ≠ (90000 * 1000000 : Int) - 3600 * 1000000 := by
  refine ⟨by decide, by decide, by decide, by decide, by decide⟩

/-- C3 as amended: the timeout DURATION is computed once at session
creation, as `(wipe − creation − 1 h)` clamped into [60 s, 24 h], but
the firing instant is not fixed: the view's timeout clock restarts on
every interaction, so resolution fires one clamped duration after the
last vote (after creation, when there is none).  For a session that
receives no votes and whose wipe lies between 1 h 1 min and 25 h after
creation (true under the default 24-hour lead time) resolution fires
exactly at the target wipe instant minus one hour; any vote cast
strictly after creation postpones resolution past that instant. -/
theorem C3_resolution_time (wipe_time created : Int)
    (h1 : 3660 * 1000000 ≤ wipe_time - created)
    (h2 : wipe_time - created ≤ 90000 * 1000000) :
    resolution_time wipe_time created [] = wipe_time - 3600 * 1000000 ∧
    ∀ i : Int, created < i →
      wipe_time - 3600 * 1000000 < resolution_time wipe_time created [i] := by
  unfold resolution_time poll_timeout_us usPerSec
  constructor
  · simp only [List.foldl_nil]
    omega
  · intro i hi
    simp only [List.foldl_cons, List.foldl_nil]
    omega

theorem C3_resolution_time_witness :
    resolution_time (7200 * 1000000) 0 [] = 7200 * 1000000 - 3600 * 1000000 ∧
    ∀ i : Int, 0 < i →
      (7200 * 1000000 : Int) - 3600 * 1000000 < resolution_time (7200 * 1000000) 0 [i] :=
  C3_resolution_time (7200 * 1000000) 0 (by decide) (by decide)

/-- C2 counterexample: a session persisted as active whose resolution
time (wipe instant minus one hour) is already past at startup is NOT
resolved by the scheduler: `check_upcoming_wipes` (the only startup
logic that reads `wipe_polls`; `setup_hook` merely starts this loop)
sees the active row and `continue`s, leaving the session OPEN with no
winner and emitting nothing.  Here the wipe instant is 2 hours in the
past relative to `now = 0`. -/
theorem C2_counterexample :
    check_upcoming_wipes_step "Server1" (some (-7200 * 1000000)) 0 24 11 21 true
        ⟨[("Server1", ⟨10, 20, -7200 * 1000000, true, none⟩)], []⟩
      = ⟨[("Server1", ⟨10, 20, -7200 * 1000000, true, none⟩)], []⟩ ∧
    hasActivePoll ⟨[("Server1", ⟨10, 20, -7200 * 1000000, true, none⟩)], []⟩ "Server1" = true ∧
    (-7200 * 1000000 : Int) - 3600 * 1000000 < 0 := by
  refine ⟨by decide, by decide, by decide⟩

/-- C2 as amended: on restart a session persisted as active is neither
resolved nor re-opened, whatever its resolution time: every scheduler
tick skips a server whose `wipe_polls` row is active, so the persisted
session stays OPEN indefinitely with its last-persisted state
unchanged. -/
theorem C2_restart_leaves_session_open (server_name : String)
    (next_wipe : Option Int) (now hours_before : Int)
    (message_id channel_id : Nat) (channel_found : Bool) (st : BotState)
    (h : hasActivePoll st server_name = true) :
    check_upcoming_wipes_step server_name next_wipe now hours_before
      message_id channel_id channel_found st = st := by
  unfold check_upcoming_wipes_step
  simp [h]

theorem C2_restart_leaves_session_open_witness :
    check_upcoming_wipes_step "A" none 0 24 1 2 true
        ⟨[("A", ⟨1, 2, 500, true, none⟩)], []⟩
      = ⟨[("A", ⟨1, 2, 500, true, none⟩)], []⟩ :=
  C2_restart_leaves_session_open "A" none 0 24 1 2 true
    ⟨[("A", ⟨1, 2, 500, true, none⟩)], []⟩ (by decide)

/-- C6 (confirmed): a scheduler tick for a server that already has an
OPEN session is a no-op — the state (hence the event log) is unchanged
and no duplicate poll-opened announcement is emitted — and every tick
preserves the at-most-one-row-per-server invariant of the `wipe_polls`
table (its `server_name` PRIMARY KEY), so each server has at most one
OPEN session at every reachable state. -/
theorem C6_single_open_session (server_name : String) (next_wipe : Option Int)
    (now hours_before : Int) (message_id channel_id : Nat) (channel_found : Bool)
    (st : BotState) :
    (hasActivePoll st server_name = true →
      check_upcoming_wipes_step server_name next_wipe now hours_before
        message_id channel_id channel_found st = st) ∧
    ((st.polls.map Prod.fst).Nodup →
      ((check_upcoming_wipes_step server_name next_wipe now hours_before
          message_id channel_id channel_found st).polls.map Prod.fst).Nodup) := by
  constructor
  · intro h
    unfold check_upcoming_wipes_step
    simp [h]
  · intro hnd
    unfold check_upcoming_wipes_step send_wipe_poll
    split
    · exact hnd
    · split
      · exact hnd
      · split
        · dsimp only
          split
          · simp only [List.map_cons, List.nodup_cons]
            refine ⟨?_, ?_⟩
            · intro hmem
              obtain ⟨p, hp, hfst⟩ := List.mem_map.mp hmem
              have := List.mem_filter.mp hp
              simp only [decide_eq_true_eq] at this
              exact this.2 hfst
            · exact List.Nodup.sublist ((List.filter_sublist _).map _) hnd
          · exact hnd
        · dsimp only
          split
          · exact hnd
          · exact hnd

theorem C6_single_open_session_witness :
    check_upcoming_wipes_step "B" (some 100) 0 24 1 2 true
        ⟨[("B", ⟨5, 6, 100, true, none⟩)], []⟩
      = ⟨[("B", ⟨5, 6, 100, true, none⟩)], []⟩ :=
  (C6_single_open_session "B" (some 100) 0 24 1 2 true
    ⟨[("B", ⟨5, 6, 100, true, none⟩)], []⟩).1 (by decide)

/-- After any single cast, the voter is in exactly the chosen set. -/
theorem mem_votesFor_castVote (v : Votes) (uid : Nat) (s s' : WipeSetting) :
    uid ∈ votesFor (castVote v uid s) s' ↔ s' = s := by
  cases s <;> cases s' <;>
    simp [castVote, map_vote, bp_vote, full_vote, votesFor]

/-- C7 (confirmed): after any sequence of casts by a voter ending in
setting `s` (applied to any starting tally), the voter's id is in the
vote-set for `s'` iff `s' = s` — each cast removes the voter from the
other two sets before adding them to the chosen one — and the concrete
sequence map, blueprint, map from an empty session leaves exactly the
single vote {uid} on map (total tally size 1). -/
theorem C7_one_active_vote (v : Votes) (uid : Nat) (l : List WipeSetting)
    (s s' : WipeSetting) :
    (uid ∈ votesFor ((l ++ [s]).foldl (fun acc c => castVote acc uid c) v) s' ↔ s' = s) ∧
    castVote (castVote (castVote Votes.empty uid WipeSetting.map) uid WipeSetting.blueprint)
        uid WipeSetting.map = ⟨{uid}, ∅, ∅⟩ := by
  constructor
  · rw [List.foldl_append]
    simp only [List.foldl_cons, List.foldl_nil]
    exact mem_votesFor_castVote _ uid s s'
  · simp [castVote, map_vote, bp_vote, full_vote, Votes.empty]

/-- C8 (confirmed): for every weekly rule (weekday < 7, hour < 24,
minute < 60) and every instant `t`, the weekly calculator returns the
earliest instant strictly after `t` whose weekday, hour and minute
match the rule with seconds and microseconds zero; when `t` is exactly
the scheduled moment, the result is `t` plus seven days, never `t`
itself. -/
theorem C8_weekly_next_wipe (day_of_week hour minute t : Nat)
    (hd : day_of_week < 7) (hh : hour < 24) (hm : minute < 60) :
    WeeklyNextProps day_of_week hour minute t := by
  unfold WeeklyNextProps calculate_next_wipe_weekly
  simp only [usPerDay, usPerHour, usPerMin, usPerSec]
  refine ⟨?_, ?_, ?_, ?_, ?_⟩
  · split_ifs <;> omega
  · split_ifs <;> omega
  · split_ifs <;> omega
  · intro u hu h1 h2
    split_ifs <;> omega
  · intro h
    obtain ⟨hwd, hhm⟩ := h
    split_ifs <;> omega

theorem C8_weekly_next_wipe_witness :
    WeeklyNextProps 3 14 0 1234567890 :=
  C8_weekly_next_wipe 3 14 0 1234567890 (by decide) (by decide) (by decide)

/-- The first-weekday candidate of a month: its day lies in [1, 7], its
weekday is the target, and no earlier day of that month has the target
weekday. -/
theorem first_target_of_month_props (target_day hour minute y m : Nat)
    (h : target_day < 7) :
    1 ≤ (first_target_of_month target_day hour minute y m).day ∧
    (first_target_of_month target_day hour minute y m).day ≤ 7 ∧
    weekdayOfDate y m (first_target_of_month target_day hour minute y m).day = target_day ∧
    ∀ d, 1 ≤ d → d < (first_target_of_month target_day hour minute y m).day →
      weekdayOfDate y m d ≠ target_day := by
  simp only [first_target_of_month]
  unfold weekdayOfDate toordinal
  refine ⟨by omega, by omega, by omega, ?_⟩
  intro d h1 h2 heq
  omega

/-- C9 (confirmed): for every monthly-first-weekday rule
(target weekday < 7) and every instant `now`, the monthly calculator
returns the first occurrence of the target weekday in `now`'s month at
the configured hour and minute (seconds and microseconds zero); if that
moment is at or before `now`, it instead returns the first such weekday
of the following month, rolling over from December to January of the
next year. -/
theorem C9_monthly_next_wipe (target_day hour minute : Nat) (now : PyDateTime)
    (h : target_day < 7) :
    MonthlyNextProps target_day hour minute now := by
  unfold MonthlyNextProps
  simp only [calculate_next_wipe_monthly]
  by_cases hle : toAbs (first_target_of_month target_day hour minute now.year now.month) ≤ toAbs now
  · rw [if_pos hle]
    by_cases h12 : now.month = 12
    · rw [if_pos h12]
      obtain ⟨p1, p2, p3, p4⟩ :=
        first_target_of_month_props target_day hour minute (now.year + 1) 1 h
      exact ⟨rfl, rfl, rfl, rfl, p3, p1, p2, p4,
        fun _ => ⟨fun _ => ⟨rfl, rfl⟩, fun h' => absurd h12 h'⟩,
        fun hlt => absurd hle (by omega)⟩
    · rw [if_neg h12]
      obtain ⟨p1, p2, p3, p4⟩ :=
        first_target_of_month_props target_day hour minute now.year (now.month + 1) h
      exact ⟨rfl, rfl, rfl, rfl, p3, p1, p2, p4,
        fun _ => ⟨fun h' => absurd h' h12, fun _ => ⟨rfl, rfl⟩⟩,
        fun hlt => absurd hle (by omega)⟩
  · rw [if_neg hle]
    obtain ⟨p1, p2, p3, p4⟩ :=
      first_target_of_month_props target_day hour minute now.year now.month h
    exact ⟨rfl, rfl, rfl, rfl, p3, p1, p2, p4,
      fun h' => absurd h' hle,
      fun _ => ⟨rfl, rfl⟩⟩

theorem C9_monthly_next_wipe_witness :
    MonthlyNextProps 3 14 0 ⟨2024, 5, 10, 15, 30, 0, 0⟩ :=
  C9_monthly_next_wipe 3 14 0 ⟨2024, 5, 10, 15, 30, 0, 0⟩ (by decide)
